import Mathlib

/-!
Verification development for the media-bot source (`bot.py`).

The Python source is shallowly embedded: each Python function relevant to the
claims is translated into an executable Lean definition.  Strings are `String`
or `List Char`, machine integers are `Nat`/`Int`, fallible calls are modelled
with `Option`/`Except` or explicit boolean outcome flags for each external
call site (the chat transport and the download engine are external
collaborators whose calls can raise).  The filesystem is modelled
deterministically: an `os.unlink` that is actually executed succeeds.
-/

/-! ## Basic string helpers (Python semantics) -/

/-- Python `\s` for the ASCII whitespace characters (space, tab, newline,
carriage return, vertical tab, form feed).  `re.sub(r'\s+', ...)`, `.strip()`
and friends use this class (we restrict to the ASCII part of the Unicode
class). -/
def pyIsSpace (c : Char) : Bool :=
  c == ' ' || c == '\t' || c == '\n' || c == '\r' || c == '\x0b' || c == '\x0c'

/-- Does the list `s` start with the list `pat`?  (Python `str.startswith`.) -/
def startsWithL : List Char → List Char → Bool
  | [], _ => true
  | _ :: _, [] => false
  | p :: ps, c :: cs => p == c && startsWithL ps cs

/-- Python substring containment `needle in hay`. -/
def isSubstr (needle : List Char) : List Char → Bool
  | [] => needle.isEmpty
  | c :: rest => startsWithL needle (c :: rest) || isSubstr needle rest

/-- Substring containment on `String` (Python `needle in hay`). -/
def isSubstrS (needle hay : String) : Bool :=
  isSubstr needle.data hay.data

/-- Python `str.lower()` (ASCII; the domain allow-list is ASCII-only). -/
def lowerChars (l : List Char) : List Char :=
  l.map Char.toLower

/-- Python `str.lower()` on `String`. -/
def lowerS (s : String) : String :=
  ⟨lowerChars s.data⟩

/-- Python `str.strip()`: drop leading and trailing whitespace. -/
def pyStripChars (l : List Char) : List Char :=
  List.rdropWhile pyIsSpace (l.dropWhile pyIsSpace)

/-! ## Validator: `is_supported_url` (bot.py lines 490-516) -/

/-- The literal allow-list `supported_domains` from `is_supported_url`. -/
def supportedDomains : List String :=
  ["youtube.com", "youtu.be", "music.youtube.com",
   "instagram.com", "www.instagram.com",
   "facebook.com", "fb.watch", "www.facebook.com",
   "tiktok.com", "vm.tiktok.com", "www.tiktok.com",
   "twitter.com", "x.com", "www.twitter.com",
   "soundcloud.com", "www.soundcloud.com",
   "vimeo.com", "www.vimeo.com",
   "dailymotion.com", "www.dailymotion.com"]

/-- Scheme prefixing from `is_supported_url`: a stripped URL that does not
start with the literal `http://` or `https://` gets `https://` prepended. -/
def normalizeUrl (stripped : List Char) : List Char :=
  if startsWithL "http://".data stripped || startsWithL "https://".data stripped then
    stripped
  else "https://".data ++ stripped

/-- `urllib.parse.urlsplit` removes tab, carriage return and newline anywhere
in the URL before parsing. -/
def removeUnsafeBytes (l : List Char) : List Char :=
  l.filter (fun c => !(c == '\t' || c == '\r' || c == '\n'))

/-- A character allowed inside a URL scheme (letters, digits, `+`, `-`, `.`). -/
def isSchemeChar (c : Char) : Bool :=
  c.isAlphanum || c == '+' || c == '-' || c == '.'

/-- The scheme-splitting step of `urllib.parse.urlsplit`: when a `:` occurs at
index `> 0` and everything before it is a valid scheme starting with an ASCII
letter, parsing continues after the `:`; otherwise the URL is unchanged. -/
def splitSchemeRest (u : List Char) : List Char :=
  let pre := u.takeWhile (fun c => !(c == ':'))
  if pre.length < u.length && !pre.isEmpty &&
     (match pre with | c :: _ => c.isAlpha | [] => false) && pre.all isSchemeChar then
    (u.drop pre.length).drop 1
  else u

/-- The `netloc` computation of `urllib.parse.urlparse`: remove unsafe bytes,
split off the scheme, and if the remainder starts with `//` take everything up
to the next `/`, `?` or `#`.  `none` models the `ValueError` that `urlsplit`
raises on an unbalanced IPv6 bracket in the netloc. -/
def parseNetloc (u0 : List Char) : Option (List Char) :=
  let u1 := removeUnsafeBytes u0
  let rest := splitSchemeRest u1
  let netloc :=
    match rest with
    | '/' :: '/' :: r => r.takeWhile (fun c => !(c == '/' || c == '?' || c == '#'))
    | _ => []
  if (netloc.contains '[' && !(netloc.contains ']')) ||
     (netloc.contains ']' && !(netloc.contains '[')) then
    none
  else some netloc

/-- The final acceptance test of `is_supported_url`:
`any(supported in domain for supported in supported_domains)` where
`domain = netloc.lower()`. -/
def hostAccepted (netloc : List Char) : Bool :=
  supportedDomains.any (fun d => isSubstr d.data (lowerChars netloc))

/-- `is_supported_url(url)` (bot.py lines 490-516).  The Python `try`/`except`
is modelled by the `Option`: a parse error falls through to `false`. -/
def is_supported_url (raw : String) : Bool :=
  let url := pyStripChars raw.data
  if url.isEmpty then false
  else
    match parseNetloc (normalizeUrl url) with
    | none => false
    | some netloc => hostAccepted netloc

/-! ## Utility: `sanitize_filename` (bot.py lines 450-461) -/

/-- One of the characters removed by `re.sub(r'[<>:"/\\|?*]', '', ...)`. -/
def isForbiddenChar (c : Char) : Bool :=
  c == '<' || c == '>' || c == ':' || c == '"' || c == '/' || c == '\\' ||
  c == '|' || c == '?' || c == '*'

/-- `re.sub(r'\s+', ' ', s)`: every maximal run of whitespace becomes a single
space.  The boolean argument records whether the previous character was part
of a whitespace run. -/
def collapseWs : Bool → List Char → List Char
  | _, [] => []
  | prevWs, c :: rest =>
    if pyIsSpace c then
      if prevWs then collapseWs true rest else ' ' :: collapseWs true rest
    else c :: collapseWs false rest

/-- `sanitize_filename(filename)` (bot.py lines 450-461).  `none` models the
Python `None` argument; `if not filename` catches both `None` and `""`. -/
def sanitize_filename (input : Option String) : String :=
  match input with
  | none => "media_file"
  | some s =>
    if s.data.isEmpty then "media_file"
    else
      let l1 := s.data.filter (fun c => !(isForbiddenChar c))
      let l2 := pyStripChars (collapseWs false l1)
      let l3 := if l2.length > 100 then l2.take 100 else l2
      if l3.isEmpty then "media_file" else ⟨l3⟩

/-! ## Orchestrator verification scan (bot.py lines 267-284)

After discovery, `download_media` walks the candidate list: a file of size
`> 1024` bytes is accepted and the loop breaks; a smaller file is deleted
(`os.unlink`) and the scan continues.  The result is the accepted
`(path, size)` pair, if any, together with the list of deleted paths. -/

/-- The verification loop of `download_media`: first component is the accepted
file, second component the paths deleted as too small. -/
def verifyScan : List (String × Nat) → Option (String × Nat) × List String
  | [] => (none, [])
  | (p, sz) :: rest =>
    if 1024 < sz then (some (p, sz), [])
    else
      let r := verifyScan rest
      (r.1, p :: r.2)

/-! ## Download orchestrator: `download_media` (bot.py lines 194-335)

The loop makes up to `max_retries = 3` attempts.  Each attempt reads the
clock (`timestamp = int(time.time())`, line 212 — inside the loop), builds
`ydl_opts` from the same `download_type`/`quality` arguments, probes via
`extract_info(download=False)`, then fetches, then discovers and verifies
files.  Exceptions are classified at lines 291-333; both `except` blocks
first purge the `download_{timestamp}_*` glob of the current attempt.
The engine and clock are modelled as an environment indexed by the attempt
number; `files` is the candidate list the discovery step (tokened glob with
newest-file fallback) yields for that attempt. -/

/-- Metadata returned by the pre-flight `extract_info` probe. -/
structure DlInfo where
  title : String
  duration : Nat
  uploader : String
deriving DecidableEq

/-- Outcome of the pre-flight probe: metadata, a `None` result (line 224), or
an exception with message `msg`. -/
inductive ProbeR
  | ok (info : DlInfo)
  | noInfo
  | err (msg : String)
deriving DecidableEq

/-- Outcome of the fetch (`ydl.download`): success, a `yt_dlp.DownloadError`
with message `msg`, or any other exception with message `msg`. -/
inductive FetchR
  | ok
  | dlErr (msg : String)
  | exn (msg : String)
deriving DecidableEq

/-- Environment of one attempt: clock reading at the attempt start, probe and
fetch behaviour, and the file candidates the discovery step yields. -/
structure AttemptEnv where
  now : Nat
  probe : ProbeR
  fetch : FetchR
  files : List (String × Nat)

/-- Record of one executed attempt: the timestamp token used in the output
template, the format directive passed to the engine, whether the fetch was
invoked, and the token used for the partial-artifact cleanup glob (`none`
when the attempt succeeded and no cleanup ran). -/
structure AttemptTrace where
  ts : Nat
  fmt : String
  fetched : Bool
  cleanupTs : Option Nat
deriving DecidableEq

/-- Terminal outcome of `download_media`: the returned `(info, path)` pair or
the message of the exception that escaped. -/
inductive DlOutcome
  | success (info : DlInfo) (path : String)
  | failure (msg : String)
deriving DecidableEq

/-- Result of a `download_media` call: the per-attempt traces in order, and
the terminal outcome. -/
structure RunResult where
  attempts : List AttemptTrace
  outcome : DlOutcome
deriving DecidableEq

/-- The `format` field of `get_ydl_options(download_type, quality)`
(bot.py lines 110-191); `ffmpeg` is the global `FFMPEG_AVAILABLE`. -/
def get_ydl_options_format (downloadType quality : String) (ffmpeg : Bool) : String :=
  if downloadType = "audio" then
    if ffmpeg then "bestaudio/best" else "bestaudio[ext=m4a]/bestaudio/best"
  else
    if quality = "fast" then "best[height<=480]/best[height<=360]/worst"
    else if quality = "hd" then "best[height<=1080]/best[height<=720]/best"
    else "best[height<=720]/best[height<=480]/best"

/-- `max_retries` (bot.py line 197). -/
def maxRetries : Nat := 3

/-- Message wrapper at line 234: a probe failure is re-raised as a plain
`Exception("Cannot access video: ...")`. -/
def cannotAccessMsg (m : String) : String :=
  "Cannot access video: " ++ m

/-- Message at line 225 when `extract_info` returns `None`. -/
def noInfoMsg : String := "Could not extract video information"

/-- Terminal message for exhausted 403 retries (line 308). -/
def blockedMsg : String :=
  "Server blocked the request. Please try a different video or try again later."

/-- Terminal message for unavailable/private content (line 310). -/
def unavailableMsg : String := "Video is unavailable, private, or restricted."

/-- Message at line 289 when verification finds no valid file. -/
def noValidFileMsg : String := "Download completed but no valid file found"

/-- Message at line 335 (loop fell through; unreachable, kept faithfully). -/
def allFailedMsg : String := "All download attempts failed - no content received"

/-- Terminal message for other `DownloadError`s (line 316, truncated to 100). -/
def dlFailedMsg (m : String) : String :=
  "Download failed: " ++ m.take 100

/-- Trace of an attempt that failed during the probe (fetch never invoked;
the cleanup glob at lines 323-327 still runs with this attempt's token). -/
def probeTrace (dT q : String) (ff : Bool) (e : AttemptEnv) : AttemptTrace :=
  ⟨e.now, get_ydl_options_format dT q ff, false, some e.now⟩

/-- Trace of an attempt whose fetch was invoked and that ended in an
exception path (cleanup glob runs with this attempt's token). -/
def fetchTrace (dT q : String) (ff : Bool) (e : AttemptEnv) : AttemptTrace :=
  ⟨e.now, get_ydl_options_format dT q ff, true, some e.now⟩

/-- Joining an attempt to the rest of the run: when retries remain
(`attempt < max_retries - 1`) the loop continues with `rest`; otherwise the
`terminal` outcome escapes. -/
def stepJoin (canRetry : Bool) (rest : RunResult) (tr : AttemptTrace)
    (terminal : DlOutcome) : RunResult :=
  if canRetry then ⟨tr :: rest.attempts, rest.outcome⟩ else ⟨[tr], terminal⟩

/-- The attempt loop of `download_media`, with `fuel` the number of loop
iterations remaining (`fuel = maxRetries - a` at every call).  The `fuel = 0`
case is the fall-through `raise` at line 335. -/
def downloadMediaGo (dT q : String) (ff : Bool) (eng : Nat → AttemptEnv) :
    Nat → Nat → RunResult
  | _, 0 => ⟨[], .failure allFailedMsg⟩
  | a, fuel + 1 =>
    match (eng a).probe with
    | .noInfo =>
      stepJoin (decide (a < maxRetries - 1)) (downloadMediaGo dT q ff eng (a + 1) fuel)
        (probeTrace dT q ff (eng a)) (.failure (cannotAccessMsg noInfoMsg))
    | .err m =>
      stepJoin (decide (a < maxRetries - 1)) (downloadMediaGo dT q ff eng (a + 1) fuel)
        (probeTrace dT q ff (eng a)) (.failure (cannotAccessMsg m))
    | .ok info =>
      match (eng a).fetch with
      | .exn m =>
        stepJoin (decide (a < maxRetries - 1)) (downloadMediaGo dT q ff eng (a + 1) fuel)
          (fetchTrace dT q ff (eng a)) (.failure m)
      | .dlErr m =>
        if isSubstrS "HTTP Error 403" m || isSubstrS "Forbidden" m then
          stepJoin (decide (a < maxRetries - 1)) (downloadMediaGo dT q ff eng (a + 1) fuel)
            (fetchTrace dT q ff (eng a)) (.failure blockedMsg)
        else if isSubstrS "Video unavailable" m || isSubstrS "Private video" m then
          ⟨[fetchTrace dT q ff (eng a)], .failure unavailableMsg⟩
        else
          stepJoin (decide (a < maxRetries - 1)) (downloadMediaGo dT q ff eng (a + 1) fuel)
            (fetchTrace dT q ff (eng a)) (.failure (dlFailedMsg m))
      | .ok =>
        match (verifyScan (eng a).files).1 with
        | some pr =>
          ⟨[⟨(eng a).now, get_ydl_options_format dT q ff, true, none⟩],
           .success info pr.1⟩
        | none =>
          stepJoin (decide (a < maxRetries - 1)) (downloadMediaGo dT q ff eng (a + 1) fuel)
            (fetchTrace dT q ff (eng a)) (.failure noValidFileMsg)

/-- `download_media(chat_id, url, download_type, quality)` (bot.py lines
194-335), as a function of the per-attempt engine environment. -/
def download_media (dT q : String) (ff : Bool) (eng : Nat → AttemptEnv) : RunResult :=
  downloadMediaGo dT q ff eng 0 maxRetries

/-- Number of `extract_info` probe invocations in a run: every started
attempt probes exactly once (line 223). -/
def probeCount (r : RunResult) : Nat :=
  r.attempts.length

/-- Number of `ydl.download` fetch invocations in a run (line 249). -/
def fetchCount (r : RunResult) : Nat :=
  (r.attempts.filter (fun t => t.fetched)).length

/-- The user-facing reply classification of `handle_download_process`
(bot.py lines 437-444), keyed by the escaped error message. -/
def classify_error_reply (msg : String) : String :=
  let low := lowerS msg
  if isSubstrS "unavailable" low || isSubstrS "private" low then "unavailable"
  else if isSubstrS "blocked" low || isSubstrS "403" msg then "blocked"
  else if isSubstrS "No content" msg || isSubstrS "empty" low then "empty"
  else "generic"

/-! ## Delivery: the upload phase of `handle_download_process`
(bot.py lines 389-430)

Each chat-transport call can raise; the environment records, per call site,
whether the call succeeds.  `open` of the verified payload is folded into
the corresponding send flag.  The upload loop catches exceptions from the
media send and the document fallback, but the notification sends inside the
`except` blocks are not themselves guarded: when one of them raises, the
exception escapes the loop — and the cleanup at lines 424-430 is *after*
the loop, not in a `finally` block, so it is skipped. -/

/-- Per-call-site success flags for the upload phase, in source order:
line 389 (`📤 Uploading...` message), line 390 (`send_chat_action`),
line 399/401 media send of attempt 1, line 404 success notice of attempt 1,
line 411 retry notice, media send of attempt 2, success notice of
attempt 2, line 417 document fallback send, line 418 document success
notice, line 422 final failure notice. -/
structure UploadEnv where
  noteUploading : Bool
  chatAction : Bool
  media0 : Bool
  noteSuccess0 : Bool
  noteRetry : Bool
  media1 : Bool
  noteSuccess1 : Bool
  docSend : Bool
  noteDocSuccess : Bool
  noteDocFail : Bool
deriving DecidableEq

/-- Does an exception escape the upload phase (bot.py lines 389-423)?  When
`false`, control reaches the cleanup block at lines 424-430 and the payload
is deleted; when `true`, the exception propagates to the outer handler
(line 432), which never deletes the payload. -/
def uploadPhaseEscapes (e : UploadEnv) : Bool :=
  if !e.noteUploading then true
  else if !e.chatAction then true
  else if e.media0 && e.noteSuccess0 then false
  else if !e.noteRetry then true
  else if e.media1 && e.noteSuccess1 then false
  else if e.docSend && e.noteDocSuccess then false
  else !e.noteDocFail

/-! ## Conversation state: `show_main_menu` and `handle_download_process`
(bot.py lines 338-447 and 568-604)

`user_states` is a map from chat id to state string.  `show_main_menu` sends
the menu and *then* assigns `user_states[chat_id] = 'main'`, inside a `try`
whose `except` only logs: when the menu send raises, the assignment is
skipped and the state is left unchanged.  `menuOk` models whether the
transport delivers the menu message. -/

/-- `show_main_menu(chat_id)` (bot.py lines 568-604) as a state-map
transformer. -/
def show_main_menu (menuOk : Bool) (chatId : Nat) (st : Nat → Option String) :
    Nat → Option String :=
  if menuOk then (fun i => if i = chatId then some "main" else st i) else st

/-- What happened to the verified payload by the time the handler returns. -/
inductive PayloadFate
  | notReached
  | deleted
  | retained
deriving DecidableEq

/-- Environment of one `handle_download_process` call: the abstracted outcome
of the `download_media` call (`Except.error` = the exception it raised), the
`os.path.exists`/`os.path.getsize` answers for the returned path, the upload
phase transport flags, and whether the menu-render send succeeds. -/
structure HandlerEnv where
  dl : Except String (DlInfo × String)
  fileExists : Bool
  fileSize : Nat
  upload : UploadEnv
  menuOk : Bool

/-- `handle_download_process(chat_id, url, ...)` (bot.py lines 338-447) as a
state transformer, paired with the payload's fate.  Every path runs the
`finally: show_main_menu(chat_id)` of line 446-447; the early-return paths
additionally call `show_main_menu` themselves.  The `if not info or not
file_path` guard at line 352 cannot fire (a successful `download_media`
returns a non-empty info dict and a path), and the message sends outside the
upload phase are modelled as delivered — if one of them raises, control
still reaches the same `finally`. -/
def handle_download_process (chatId : Nat) (url : String) (env : HandlerEnv)
    (st : Nat → Option String) : (Nat → Option String) × PayloadFate :=
  let menu := show_main_menu env.menuOk chatId
  if !(is_supported_url url) then
    (menu (menu st), .notReached)
  else
    match env.dl with
    | .error _ => (menu st, .notReached)
    | .ok _ =>
      if !env.fileExists then (menu (menu st), .notReached)
      else if env.fileSize < 1024 then (menu (menu st), .deleted)
      else if uploadPhaseEscapes env.upload then (menu st, .retained)
      else (menu st, .deleted)

/-! ## Search adapter: `process_music_search` (bot.py lines 678-729) -/

/-- A non-`None` search entry: `duration` is `none` when the `'duration'`
key is absent (then `e.get('duration', 0)` yields `0`). -/
structure SEntry where
  duration : Option Nat
  title : String
  url : String
deriving DecidableEq

/-- The fixed result count requested from the engine: the literal `3` in
`search_url = f"ytsearch3:{query}"` (line 697). -/
def searchRequestCount : Nat := 3

/-- The search URL handed to the engine (line 697). -/
def search_url (query : String) : String :=
  "ytsearch3:" ++ query

/-- The filter at line 707:
`[e for e in info['entries'] if e and e.get('duration', 0) < 1800][:3]`. -/
def filterSearchEntries (es : List (Option SEntry)) : List SEntry :=
  ((es.filterMap id).filter (fun s => decide (s.duration.getD 0 < 1800))).take 3

/-- Outcome of one `process_music_search` call. -/
inductive SearchOutcome
  | tooShort
  | noResults
  | noValidResults
  | dispatched (url : String)
deriving DecidableEq

/-- Result of a search: the result count requested from the engine (`none`
when the engine was never invoked) and the outcome. -/
structure SearchRun where
  requested : Option Nat
  outcome : SearchOutcome
deriving DecidableEq

/-- Is the outcome one of the two no-results failures (lines 703 and 710)? -/
def isNoResultsFailure : SearchOutcome → Bool
  | .noResults => true
  | .noValidResults => true
  | _ => false

/-- `process_music_search(message)` (bot.py lines 678-729).  `raw` is the
engine's answer: `none` models a falsy `info` or a missing `'entries'` key,
`some es` the entry list (whose elements may themselves be `None`). -/
def process_music_search (query : String) (raw : Option (List (Option SEntry))) :
    SearchRun :=
  if (pyStripChars query.data).length < 2 then ⟨none, .tooShort⟩
  else
    match raw with
    | none => ⟨some searchRequestCount, .noResults⟩
    | some es =>
      if es.isEmpty then ⟨some searchRequestCount, .noResults⟩
      else
        match filterSearchEntries es with
        | [] => ⟨some searchRequestCount, .noValidResults⟩
        | first :: _ => ⟨some searchRequestCount, .dispatched first.url⟩

/-! ## Retention sweeper: `CleanupManager.cleanup_old_files`
(bot.py lines 523-546)

The sweep lists the storage area and deletes every regular file whose age
`(current_time - getctime) / 60` exceeds `max_age_minutes`.  Over the
integers that comparison with real division is equivalent to
`now - ctime > 60 * max_age_minutes`.  Deletion is modelled as succeeding
(the per-file `try`/`except` only guards OS errors). -/

/-- A directory entry of the shared storage area. -/
structure FsEntry where
  name : String
  isFile : Bool
  ctime : Int
deriving DecidableEq

/-- The deletion condition of one sweep iteration (lines 531-533). -/
def sweepCond (now maxAgeMinutes : Int) (e : FsEntry) : Bool :=
  e.isFile && decide (now - e.ctime > 60 * maxAgeMinutes)

/-- `cleanup_old_files(max_age_minutes)` at clock reading `now`: returns the
`deleted_files` counter and the remaining directory contents. -/
def cleanup_old_files (now maxAgeMinutes : Int) : List FsEntry → Nat × List FsEntry
  | [] => (0, [])
  | e :: rest =>
    let r := cleanup_old_files now maxAgeMinutes rest
    if sweepCond now maxAgeMinutes e then (r.1 + 1, r.2) else (r.1, e :: r.2)

/-! ## Concrete fixtures for witnesses and counterexamples -/

/-- The pair of adjacent characters forbidden after whitespace collapsing:
two whitespace characters in a row. -/
abbrev noAdjWs (a b : Char) : Prop :=
  ¬(pyIsSpace a = true ∧ pyIsSpace b = true)

/-- Sample probe metadata. -/
def infoX : DlInfo := ⟨"t", 10, "u"⟩

/-- Upload-phase environment in which every transport call succeeds. -/
def uploadAllOk : UploadEnv :=
  ⟨true, true, true, true, true, true, true, true, true, true⟩

/-- Engine whose fetch always raises a transient error; the clock advances by
the 3-second backoff between attempts. -/
def engC4 : Nat → AttemptEnv :=
  fun a => ⟨100 + 3 * a, .ok infoX, .exn "timed out", []⟩

/-- Engine whose pre-flight probe always raises an access-denial error. -/
def engC5 : Nat → AttemptEnv :=
  fun _ => ⟨500, .err "Video unavailable: x", .ok, []⟩

/-- Engine whose fetch always fails with an HTTP 403 response. -/
def engC6 : Nat → AttemptEnv :=
  fun a => ⟨900 + a, .ok infoX, .dlErr "HTTP Error 403: Forbidden", []⟩

/-- Handler environment for the C2 counterexample: the first media upload
attempt fails and the retry notice at line 411 itself raises. -/
def envC2cex : HandlerEnv :=
  ⟨.ok (infoX, "f"), true, 5000,
   ⟨true, true, false, true, false, true, true, true, true, true⟩, true⟩

/-- Handler environment for the C2 witness: both media sends and the document
fallback fail, every notification send succeeds. -/
def envC2wit : HandlerEnv :=
  ⟨.ok (infoX, "f"), true, 5000,
   ⟨true, true, false, true, true, false, true, false, true, true⟩, true⟩

/-- Handler environment for the C1 counterexample: `download_media` raised
and the menu-render send fails. -/
def envC1cex : HandlerEnv :=
  ⟨.error "boom", true, 0, uploadAllOk, false⟩

/-- Handler environment for the C1 witness. -/
def envC1wit : HandlerEnv :=
  ⟨.error "boom", true, 0, uploadAllOk, true⟩

/-- A search entry whose `'duration'` key is missing. -/
def entryNoDur : SEntry := ⟨none, "t", "u"⟩

/-- A search entry with a short duration. -/
def entryShort : SEntry := ⟨some 60, "t2", "u2"⟩

/-! ## Helper lemmas -/

theorem cleanup_remaining_not_cond (now m : Int) :
    ∀ fs : List FsEntry, ∀ e ∈ (cleanup_old_files now m fs).2, sweepCond now m e = false := by
  intro fs
  induction fs with
  | nil => intro e he; simp [cleanup_old_files] at he
  | cons hd tl ih =>
    intro e he
    by_cases h : sweepCond now m hd = true
    · simp [cleanup_old_files, h] at he
      exact ih e he
    · simp [cleanup_old_files, h] at he
      rcases he with he | he
      · subst he; simpa using h
      · exact ih e he

theorem cleanup_all_clean (now m : Int) :
    ∀ fs : List FsEntry, (∀ e ∈ fs, sweepCond now m e = false) →
      cleanup_old_files now m fs = (0, fs) := by
  intro fs
  induction fs with
  | nil => intro _; rfl
  | cons hd tl ih =>
    intro h
    have hhd : sweepCond now m hd = false := h hd (by simp)
    have htl := ih (fun e he => h e (by simp [he]))
    simp [cleanup_old_files, hhd, htl]

theorem verifyScan_characterization (fs : List (String × Nat)) :
    (verifyScan fs).1 = fs.find? (fun x => decide (1024 < x.2)) ∧
    (verifyScan fs).2 = (fs.takeWhile (fun x => decide (x.2 ≤ 1024))).map Prod.fst := by
  induction fs with
  | nil => simp [verifyScan]
  | cons hd tl ih =>
    obtain ⟨p, sz⟩ := hd
    by_cases h : 1024 < sz
    · simp [verifyScan, List.find?, List.takeWhile, h, Nat.not_le.mpr h]
    · have h' : sz ≤ 1024 := Nat.not_lt.mp h
      simp [verifyScan, List.find?, List.takeWhile, h, h', ih.1, ih.2]

theorem mem_stepJoin {P : AttemptTrace → Prop} (b : Bool) (rest : RunResult)
    (tr : AttemptTrace) (term : DlOutcome)
    (hr : ∀ u ∈ rest.attempts, P u) (ht : P tr) :
    ∀ u ∈ (stepJoin b rest tr term).attempts, P u := by
  cases b with
  | false => intro u hu; simp [stepJoin] at hu; subst hu; exact ht
  | true =>
    intro u hu
    simp [stepJoin] at hu
    rcases hu with hu | hu
    · subst hu; exact ht
    · exact hr u hu

theorem downloadMediaGo_cleanup_token (dT q : String) (ff : Bool)
    (eng : Nat → AttemptEnv) :
    ∀ fuel a, ∀ tr ∈ (downloadMediaGo dT q ff eng a fuel).attempts,
      tr.cleanupTs = none ∨ tr.cleanupTs = some tr.ts := by
  intro fuel
  induction fuel with
  | zero => intro a tr htr; simp [downloadMediaGo] at htr
  | succ fuel ih =>
    intro a tr htr
    have hP : ∀ e : AttemptEnv,
        (probeTrace dT q ff e).cleanupTs = none ∨
        (probeTrace dT q ff e).cleanupTs = some (probeTrace dT q ff e).ts :=
      fun e => Or.inr rfl
    have hF : ∀ e : AttemptEnv,
        (fetchTrace dT q ff e).cleanupTs = none ∨
        (fetchTrace dT q ff e).cleanupTs = some (fetchTrace dT q ff e).ts :=
      fun e => Or.inr rfl
    revert htr
    unfold downloadMediaGo
    cases hpr : (eng a).probe with
    | noInfo => exact mem_stepJoin _ _ _ _ (ih (a + 1)) (hP (eng a)) tr
    | err m => exact mem_stepJoin _ _ _ _ (ih (a + 1)) (hP (eng a)) tr
    | ok info =>
      cases hfe : (eng a).fetch with
      | exn m => exact mem_stepJoin _ _ _ _ (ih (a + 1)) (hF (eng a)) tr
      | dlErr m =>
        by_cases h1 : (isSubstrS "HTTP Error 403" m || isSubstrS "Forbidden" m) = true
        · simp only [h1, if_true]
          exact mem_stepJoin _ _ _ _ (ih (a + 1)) (hF (eng a)) tr
        · simp only [Bool.not_eq_true] at h1
          by_cases h2 : (isSubstrS "Video unavailable" m || isSubstrS "Private video" m) = true
          · simp only [h1, h2, Bool.false_eq_true, if_false, if_true]
            intro htr
            simp at htr
            subst htr
            exact hF (eng a)
          · simp only [Bool.not_eq_true] at h2
            simp only [h1, h2, Bool.false_eq_true, if_false]
            exact mem_stepJoin _ _ _ _ (ih (a + 1)) (hF (eng a)) tr
      | ok =>
        cases hvs : (verifyScan (eng a).files).1 with
        | some pr =>
          intro htr
          simp at htr
          subst htr
          exact Or.inl rfl
        | none => exact mem_stepJoin _ _ _ _ (ih (a + 1)) (hF (eng a)) tr

theorem isSubstr_append_right (n t s : List Char) (h : isSubstr n t = true) :
    isSubstr n (s ++ t) = true := by
  induction s with
  | nil => simpa using h
  | cons c cs ih => simp [isSubstr, ih]

theorem string_data_append (s t : String) : (s ++ t).data = s.data ++ t.data := by
  cases s; cases t; rfl

theorem classify_unavailable_of_wrapped (m : String)
    (h : isSubstrS "unavailable" (lowerS m) = true) :
    classify_error_reply (cannotAccessMsg m) = "unavailable" := by
  have hlow : isSubstrS "unavailable" (lowerS (cannotAccessMsg m)) = true := by
    unfold cannotAccessMsg lowerS isSubstrS at *
    simp only [string_data_append]
    unfold lowerChars at *
    rw [List.map_append]
    simp only at h
    exact isSubstr_append_right _ _ _ h
  simp [classify_error_reply, hlow]

theorem uploadPhaseEscapes_false_of_notes (u : UploadEnv)
    (h1 : u.noteUploading = true) (h2 : u.chatAction = true)
    (h3 : u.noteSuccess0 = true) (h4 : u.noteRetry = true)
    (h5 : u.noteSuccess1 = true) (h6 : u.noteDocSuccess = true)
    (h7 : u.noteDocFail = true) :
    uploadPhaseEscapes u = false := by
  unfold uploadPhaseEscapes
  rw [h1, h2, h3, h4, h5, h6, h7]
  cases hm0 : u.media0 <;> cases hm1 : u.media1 <;> cases hd : u.docSend <;> simp

theorem mem_collapseWs : ∀ (l : List Char) (b : Bool) (c : Char),
    c ∈ collapseWs b l → c = ' ' ∨ c ∈ l := by
  intro l
  induction l with
  | nil => intro b c hc; simp [collapseWs] at hc
  | cons d rest ih =>
    intro b c hc
    by_cases hd : pyIsSpace d = true
    · cases b with
      | true =>
        simp only [collapseWs, hd, if_true] at hc
        rcases ih true c hc with h | h
        · exact Or.inl h
        · exact Or.inr (List.mem_cons_of_mem d h)
      | false =>
        simp only [collapseWs, hd, if_true] at hc
        rcases List.mem_cons.mp hc with h | h
        · exact Or.inl h
        · rcases ih true c h with h' | h'
          · exact Or.inl h'
          · exact Or.inr (List.mem_cons_of_mem d h')
    · simp only [Bool.not_eq_true] at hd
      simp only [collapseWs, hd, Bool.false_eq_true, if_false] at hc
      rcases List.mem_cons.mp hc with h | h
      · exact Or.inr (h ▸ List.mem_cons_self d rest)
      · rcases ih false c h with h' | h'
        · exact Or.inl h'
        · exact Or.inr (List.mem_cons_of_mem d h')

theorem head_collapseWs_true : ∀ (l : List Char) (c : Char),
    (collapseWs true l).head? = some c → pyIsSpace c = false := by
  intro l
  induction l with
  | nil => intro c hc; simp [collapseWs] at hc
  | cons d rest ih =>
    intro c hc
    by_cases hd : pyIsSpace d = true
    · simp only [collapseWs, hd, if_true] at hc
      exact ih c hc
    · simp only [Bool.not_eq_true] at hd
      simp only [collapseWs, hd, Bool.false_eq_true, if_false, List.head?_cons,
        Option.some.injEq] at hc
      exact hc ▸ hd

theorem chain'_collapseWs : ∀ (l : List Char) (b : Bool),
    List.Chain' noAdjWs (collapseWs b l) := by
  intro l
  induction l with
  | nil => intro b; simp [collapseWs]
  | cons d rest ih =>
    intro b
    by_cases hd : pyIsSpace d = true
    · cases b with
      | true => simpa only [collapseWs, hd, if_true] using ih true
      | false =>
        simp only [collapseWs, hd, if_true]
        refine List.chain'_cons'.mpr ⟨?_, ih true⟩
        intro y hy
        have hy' : (collapseWs true rest).head? = some y := hy
        have := head_collapseWs_true rest y hy'
        intro hcon
        rw [this] at hcon
        exact absurd hcon.2 (by simp)
    · simp only [Bool.not_eq_true] at hd
      simp only [collapseWs, hd, Bool.false_eq_true, if_false]
      refine List.chain'_cons'.mpr ⟨?_, ih false⟩
      intro y hy
      intro hcon
      rw [hd] at hcon
      exact absurd hcon.1 (by simp)

theorem chain'_dropWhile {l : List Char} (h : List.Chain' noAdjWs l) :
    List.Chain' noAdjWs (l.dropWhile pyIsSpace) := by
  obtain ⟨s, hs⟩ := List.dropWhile_suffix (l := l) pyIsSpace
  rw [← hs] at h
  exact h.right_of_append

theorem chain'_rdropWhile {l : List Char} (h : List.Chain' noAdjWs l) :
    List.Chain' noAdjWs (List.rdropWhile pyIsSpace l) := by
  obtain ⟨t, ht⟩ := List.rdropWhile_prefix pyIsSpace l
  rw [← ht] at h
  exact h.left_of_append

theorem chain'_pyStripChars {l : List Char} (h : List.Chain' noAdjWs l) :
    List.Chain' noAdjWs (pyStripChars l) :=
  chain'_rdropWhile (chain'_dropWhile h)

theorem chain'_take {l : List Char} (n : Nat) (h : List.Chain' noAdjWs l) :
    List.Chain' noAdjWs (l.take n) := by
  have := List.take_append_drop n l
  rw [← this] at h
  exact h.left_of_append

theorem mem_dropWhile_mem {l : List Char} {c : Char}
    (h : c ∈ l.dropWhile pyIsSpace) : c ∈ l := by
  obtain ⟨s, hs⟩ := List.dropWhile_suffix (l := l) pyIsSpace
  rw [← hs]
  exact List.mem_append_right s h

theorem mem_rdropWhile_mem {l : List Char} {c : Char}
    (h : c ∈ List.rdropWhile pyIsSpace l) : c ∈ l := by
  obtain ⟨t, ht⟩ := List.rdropWhile_prefix pyIsSpace l
  rw [← ht]
  exact List.mem_append_left t h

theorem mem_pyStripChars_mem {l : List Char} {c : Char}
    (h : c ∈ pyStripChars l) : c ∈ l :=
  mem_dropWhile_mem (mem_rdropWhile_mem h)

/-! ## Claim theorems -/

/-- Claim C9 (confirmed): the retention sweep is idempotent — running
`cleanup_old_files` again at the same clock reading, with the same threshold
and no new files, deletes zero files and leaves the directory unchanged,
because the first run removed every entry older than the threshold. -/
theorem c9_cleanup_idempotent (now m : Int) (fs : List FsEntry) :
    (cleanup_old_files now m (cleanup_old_files now m fs).2).1 = 0 ∧
    (cleanup_old_files now m (cleanup_old_files now m fs).2).2 =
      (cleanup_old_files now m fs).2 := by
  have h := cleanup_all_clean now m (cleanup_old_files now m fs).2
    (cleanup_remaining_not_cond now m fs)
  rw [h]
  exact ⟨rfl, rfl⟩

/-- Claim C3, counterexample to the claim as stated: with discovery order
`[("a", 2000), ("b", 600)]` the 600-byte file `b` is a discovered file of at
most 1024 bytes, yet the verification loop (which breaks at the first valid
file) deletes nothing, so `b` is not deleted. -/
theorem c3_counterexample :
    (("b", 600) ∈ [("a", 2000), ("b", 600)] ∧ 600 ≤ 1024) ∧
    (verifyScan [("a", 2000), ("b", 600)]).2 = [] ∧
    "b" ∉ (verifyScan [("a", 2000), ("b", 600)]).2 := by
  decide

/-- Claim C3 (amended): the verification loop accepts exactly the first
discovered file of size strictly greater than 1024 bytes; it deletes exactly
the files before it (all of size at most 1024); an accepted file always has
size strictly greater than 1024, so no small file is ever passed to
delivery; and a first candidate of exactly 1025 bytes is accepted. -/
theorem c3_verify_scan (fs : List (String × Nat)) :
    (verifyScan fs).1 = fs.find? (fun x => decide (1024 < x.2)) ∧
    (verifyScan fs).2 = (fs.takeWhile (fun x => decide (x.2 ≤ 1024))).map Prod.fst ∧
    (∀ p n, (verifyScan fs).1 = some (p, n) → 1024 < n) ∧
    (verifyScan [("f", 1025)]).1 = some ("f", 1025) := by
  refine ⟨(verifyScan_characterization fs).1, (verifyScan_characterization fs).2, ?_, by decide⟩
  intro p n h
  rw [(verifyScan_characterization fs).1] at h
  have := List.find?_some h
  simpa using this

/-- Claim C3 witness: the amended theorem applied to the boundary input. -/
theorem c3_witness :
    (verifyScan [("f", 1025)]).1 = some ("f", 1025) ∧ 1024 < 1025 :=
  ⟨(c3_verify_scan [("f", 1025)]).2.2.2,
   (c3_verify_scan [("f", 1025)]).2.2.1 "f" 1025 (c3_verify_scan [("f", 1025)]).2.2.2⟩

/-- Claim C4, counterexample to the claim as stated: with transient fetch
failures and the clock advancing by the 3-second backoff, the three attempts
of one `download_media` call embed three different timestamp tokens
(`int(time.time())` is evaluated inside the loop, once per attempt), so the
token is not the same across the retry attempts. -/
theorem c4_counterexample :
    ((download_media "video" "best" true engC4).attempts.map AttemptTrace.ts)
      = [100, 103, 106] ∧ (100 : Nat) ≠ 103 := by
  decide

/-- Claim C4 (amended): the timestamp token is derived once per attempt, not
once per call; within any single attempt the cleanup glob uses exactly the
token embedded in that attempt's output template (or no cleanup ran), so
each attempt's cleanup matches its own partial artifacts. -/
theorem c4_token_per_attempt (dT q : String) (ff : Bool) (eng : Nat → AttemptEnv)
    (tr : AttemptTrace) (h : tr ∈ (download_media dT q ff eng).attempts) :
    tr.cleanupTs = none ∨ tr.cleanupTs = some tr.ts :=
  downloadMediaGo_cleanup_token dT q ff eng maxRetries 0 tr h

/-- Claim C4 witness: the amended theorem applied to the first attempt of a
concrete run. -/
theorem c4_witness :
    (⟨100, "best[height<=720]/best[height<=480]/best", true, some 100⟩ :
      AttemptTrace).cleanupTs = none ∨
    (⟨100, "best[height<=720]/best[height<=480]/best", true, some 100⟩ :
      AttemptTrace).cleanupTs = some 100 :=
  c4_token_per_attempt "video" "best" true engC4
    ⟨100, "best[height<=720]/best[height<=480]/best", true, some 100⟩ (by decide)

/-- Claim C6 (code bug): when every fetch attempt fails with HTTP 403, the
code retries — but `ydl_opts` is rebuilt from the unchanged
`download_type`/`quality` arguments, so all three attempts use the identical
format directive (the comment `# Try different format on retry` notwith-
standing); after exhaustion the terminal blocked error is raised. -/
theorem c6_same_format_on_403_retries :
    ((download_media "video" "best" true engC6).attempts.map AttemptTrace.fmt)
      = ["best[height<=720]/best[height<=480]/best",
         "best[height<=720]/best[height<=480]/best",
         "best[height<=720]/best[height<=480]/best"] ∧
    fetchCount (download_media "video" "best" true engC6) = 3 ∧
    (download_media "video" "best" true engC6).outcome = .failure blockedMsg := by
  decide

/-- Claim C5, counterexample to the claim as stated: with an engine whose
probe always raises an access-denial error, `download_media` performs three
probe invocations, not exactly one — the probe failure is re-wrapped as a
plain exception at line 234, which always takes the generic retry path of
lines 318-333 and consumes the whole retry budget. -/
theorem c5_counterexample :
    probeCount (download_media "video" "best" true engC5) = 3 ∧
    (3 : Nat) ≠ 1 ∧
    fetchCount (download_media "video" "best" true engC5) = 0 := by
  decide

/-- Claim C5 (amended): when the pre-flight probe fails on every attempt, the
probe is invoked once per attempt (three times), no fetch is ever invoked,
the retry budget is fully consumed, and the terminal error is the wrapped
message of the last attempt; the handler then reports unavailability
whenever that message mentions unavailable content. -/
theorem c5_probe_failure_retries (dT q : String) (ff : Bool)
    (eng : Nat → AttemptEnv) (m : Nat → String)
    (h : ∀ a, a < 3 → (eng a).probe = ProbeR.err (m a)) :
    probeCount (download_media dT q ff eng) = 3 ∧
    fetchCount (download_media dT q ff eng) = 0 ∧
    (download_media dT q ff eng).outcome = .failure (cannotAccessMsg (m 2)) ∧
    (isSubstrS "unavailable" (lowerS (m 2)) = true →
      classify_error_reply (cannotAccessMsg (m 2)) = "unavailable") := by
  have h0 := h 0 (by norm_num)
  have h1 := h 1 (by norm_num)
  have h2 := h 2 (by norm_num)
  have hrun : download_media dT q ff eng =
      ⟨[probeTrace dT q ff (eng 0), probeTrace dT q ff (eng 1),
        probeTrace dT q ff (eng 2)],
       .failure (cannotAccessMsg (m 2))⟩ := by
    unfold download_media maxRetries
    unfold downloadMediaGo
    rw [h0]
    unfold downloadMediaGo
    rw [h1]
    unfold downloadMediaGo
    rw [h2]
    simp [stepJoin, maxRetries]
  refine ⟨?_, ?_, ?_, fun hm => classify_unavailable_of_wrapped (m 2) hm⟩
  · rw [hrun]; rfl
  · rw [hrun]; simp [fetchCount, probeTrace, List.filter]
  · rw [hrun]

/-- Claim C5 witness: the amended theorem applied to a concrete engine whose
probe always raises an access-denial message. -/
theorem c5_witness :
    probeCount (download_media "video" "best" true engC5) = 3 ∧
    fetchCount (download_media "video" "best" true engC5) = 0 ∧
    (download_media "video" "best" true engC5).outcome =
      .failure (cannotAccessMsg "Video unavailable: x") ∧
    classify_error_reply (cannotAccessMsg "Video unavailable: x") = "unavailable" :=
  ⟨(c5_probe_failure_retries "video" "best" true engC5
      (fun _ => "Video unavailable: x") (fun _ _ => rfl)).1,
   (c5_probe_failure_retries "video" "best" true engC5
      (fun _ => "Video unavailable: x") (fun _ _ => rfl)).2.1,
   (c5_probe_failure_retries "video" "best" true engC5
      (fun _ => "Video unavailable: x") (fun _ _ => rfl)).2.2.1,
   (c5_probe_failure_retries "video" "best" true engC5
      (fun _ => "Video unavailable: x") (fun _ _ => rfl)).2.2.2 (by decide)⟩

/-- Claim C1, counterexample to the claim as stated: the handler's `finally`
block does run `show_main_menu`, but `show_main_menu` assigns
`user_states[chat_id] = 'main'` only *after* its message send, inside a
`try` whose `except` merely logs — so when the menu-render send raises (a
caught error on this code path), the requester is left in `'processing'`,
not reset to `'main'`. -/
theorem c1_counterexample :
    ((handle_download_process 1 "https://youtu.be/abc" envC1cex
        (fun _ => some "processing")).1) 1 = some "processing" ∧
    some "processing" ≠ some "main" := by
  decide

/-- Claim C1 (amended): on every completion path of the handler — success,
caught error, or exception — the `finally` block renders the menu, and
whenever that menu-render send succeeds the requester's state is reset to
`'main'`; only a transport failure during the menu render can leave the
state unchanged. -/
theorem c1_state_reset (chatId : Nat) (url : String) (env : HandlerEnv)
    (st : Nat → Option String) (h : env.menuOk = true) :
    ((handle_download_process chatId url env st).1) chatId = some "main" := by
  unfold handle_download_process show_main_menu
  rw [h]
  simp only [if_true]
  by_cases hu : is_supported_url url
  · simp only [hu, Bool.not_true, Bool.false_eq_true, if_false]
    cases env.dl with
    | error e => simp
    | ok p =>
      by_cases he : env.fileExists
      · simp only [he, Bool.not_true, Bool.false_eq_true, if_false]
        by_cases hsz : env.fileSize < 1024
        · simp [hsz]
        · by_cases hup : uploadPhaseEscapes env.upload = true
          · simp [hsz, hup]
          · simp [hsz, hup]
      · simp only [Bool.not_eq_true] at he
        simp [he]
  · simp only [Bool.not_eq_true] at hu
    simp [hu]

/-- Claim C1 witness: the amended theorem applied to a concrete failing
download with a working menu render. -/
theorem c1_witness :
    ((handle_download_process 1 "u" envC1wit (fun _ => some "processing")).1) 1
      = some "main" :=
  c1_state_reset 1 "u" envC1wit (fun _ => some "processing") rfl

/-- Claim C2, counterexample to the claim as stated: the payload cleanup at
lines 424-430 is *after* the upload loop, not in a `finally` block.  With a
verified payload, a failing first media upload and a retry notice (line 411)
that itself raises, the exception escapes the upload phase and the payload
is retained, not deleted. -/
theorem c2_counterexample :
    (handle_download_process 1 "https://youtu.be/abc" envC2cex
        (fun _ => none)).2 = PayloadFate.retained ∧
    PayloadFate.retained ≠ PayloadFate.deleted := by
  decide

/-- Claim C2 (amended): for every verified payload handed to delivery, if
none of the notification sends of the upload phase raises, then whatever the
media uploads and the document fallback do — succeed or fail in any
combination — control reaches the cleanup block and the payload is deleted;
the guarantee is conditional on the notification sends because the cleanup
is not in a `finally` block. -/
theorem c2_payload_deleted (chatId : Nat) (url : String) (env : HandlerEnv)
    (st : Nat → Option String)
    (hurl : is_supported_url url = true)
    (hdl : ∃ p, env.dl = Except.ok p)
    (hex : env.fileExists = true)
    (hsz : 1024 ≤ env.fileSize)
    (h1 : env.upload.noteUploading = true) (h2 : env.upload.chatAction = true)
    (h3 : env.upload.noteSuccess0 = true) (h4 : env.upload.noteRetry = true)
    (h5 : env.upload.noteSuccess1 = true) (h6 : env.upload.noteDocSuccess = true)
    (h7 : env.upload.noteDocFail = true) :
    (handle_download_process chatId url env st).2 = PayloadFate.deleted := by
  obtain ⟨p, hp⟩ := hdl
  have hesc := uploadPhaseEscapes_false_of_notes env.upload h1 h2 h3 h4 h5 h6 h7
  have hsz' : ¬ env.fileSize < 1024 := by omega
  unfold handle_download_process
  rw [hurl, hp]
  simp [hex, hsz', hesc]

/-- Claim C2 witness: the amended theorem applied to a concrete environment
in which both media sends and the document fallback fail but every
notification send succeeds. -/
theorem c2_witness :
    (handle_download_process 1 "https://youtu.be/abc" envC2wit
        (fun _ => none)).2 = PayloadFate.deleted :=
  c2_payload_deleted 1 "https://youtu.be/abc" envC2wit (fun _ => none)
    (by decide) ⟨(infoX, "f"), rfl⟩ rfl (by decide)
    rfl rfl rfl rfl rfl rfl rfl

/-- Claim C8, counterexample to the claim as stated: an entry whose
`'duration'` key is missing is *not* excluded — `e.get('duration', 0)`
defaults it to `0`, which passes the `< 1800` filter — so the search
dispatches a download instead of reporting a no-results failure. -/
theorem c8_counterexample :
    (process_music_search "ab" (some [some entryNoDur])).outcome =
      SearchOutcome.dispatched "u" ∧
    entryNoDur.duration = none ∧
    isNoResultsFailure (process_music_search "ab" (some [some entryNoDur])).outcome
      = false := by
  decide

/-- Claim C8 (amended): for every query of at least two characters (after
stripping), the adapter requests exactly 3 results from the engine; the
filter drops `None` entries and entries with duration at least 1800 seconds
but keeps entries with a missing duration (treated as 0); the requester gets
a no-results failure, with no download dispatched, exactly when the filtered
list is empty, and otherwise the first filtered entry is dispatched. -/
theorem c8_search_filter (query : String) (raw : Option (List (Option SEntry)))
    (h : 2 ≤ (pyStripChars query.data).length) :
    (process_music_search query raw).requested = some 3 ∧
    (isNoResultsFailure (process_music_search query raw).outcome = true ↔
      filterSearchEntries (raw.getD []) = []) ∧
    (∀ first rest, filterSearchEntries (raw.getD []) = first :: rest →
      (process_music_search query raw).outcome = .dispatched first.url) ∧
    (∀ es : List (Option SEntry), ∀ s ∈ filterSearchEntries es,
      s.duration.getD 0 < 1800) := by
  have hlen : ¬ (pyStripChars query.data).length < 2 := by omega
  have hside : ∀ es : List (Option SEntry), ∀ s ∈ filterSearchEntries es,
      s.duration.getD 0 < 1800 := by
    intro es s hs
    unfold filterSearchEntries at hs
    have hs' := List.take_subset 3 _ hs
    have := (List.mem_filter.mp hs').2
    exact of_decide_eq_true this
  cases raw with
  | none =>
    refine ⟨?_, ?_, ?_, hside⟩
    · simp [process_music_search, hlen, searchRequestCount]
    · simp [process_music_search, hlen, isNoResultsFailure, filterSearchEntries]
    · intro first rest hf
      simp [filterSearchEntries, Option.getD] at hf
  | some es =>
    by_cases he : es.isEmpty
    · have hes : es = [] := List.isEmpty_iff.mp he
      subst hes
      refine ⟨?_, ?_, ?_, hside⟩
      · simp [process_music_search, hlen, searchRequestCount]
      · simp [process_music_search, hlen, he, isNoResultsFailure, filterSearchEntries]
      · intro first rest hf
        simp [filterSearchEntries] at hf
    · cases hf : filterSearchEntries es with
      | nil =>
        refine ⟨?_, ?_, ?_, hside⟩
        · simp [process_music_search, hlen, he, hf, searchRequestCount]
        · simp [process_music_search, hlen, he, hf, isNoResultsFailure]
        · intro first rest hfr
          simp only [Option.getD] at hfr
          rw [hf] at hfr
          exact absurd hfr (by simp)
      | cons f fs =>
        refine ⟨?_, ?_, ?_, hside⟩
        · simp [process_music_search, hlen, he, hf, searchRequestCount]
        · simp [process_music_search, hlen, he, hf, isNoResultsFailure]
        · intro first rest hfr
          simp only [Option.getD] at hfr
          rw [hf] at hfr
          obtain ⟨hfe, -⟩ := List.cons.injEq f fs first rest ▸ hfr
          simp [process_music_search, hlen, he, hf]
          rw [List.cons.injEq] at hfr
          rw [hfr.1]

/-- Claim C8 witness: the amended theorem applied to a concrete query and a
concrete entry list with one short entry. -/
theorem c8_witness :
    (process_music_search "ab" (some [some entryShort])).requested = some 3 ∧
    (process_music_search "ab" (some [some entryShort])).outcome =
      SearchOutcome.dispatched "u2" :=
  ⟨(c8_search_filter "ab" (some [some entryShort]) (by decide)).1,
   (c8_search_filter "ab" (some [some entryShort]) (by decide)).2.2.1
     entryShort [] (by decide)⟩

/-- Claim C7 (confirmed): `is_supported_url` never raises (any parse error
yields `false`); a stripped, schemeless input is treated exactly as if
prefixed with `https://` before netloc parsing and domain matching; the
result is `true` exactly when the input survives stripping, the netloc
parses, and the lowercased netloc contains one of the allow-listed domains;
and the two boundary examples hold: `youtu.be/abc` is accepted,
`example.com/video` is rejected. -/
theorem c7_is_supported_url_contract :
    is_supported_url "youtu.be/abc" = true ∧
    is_supported_url "example.com/video" = false ∧
    (∀ raw : String, parseNetloc (normalizeUrl (pyStripChars raw.data)) = none →
      is_supported_url raw = false) ∧
    (∀ l : List Char, l.dropWhile pyIsSpace = l → List.rdropWhile pyIsSpace l = l →
      l.isEmpty = false →
      startsWithL "http://".data l = false → startsWithL "https://".data l = false →
      is_supported_url (String.mk l) =
        (match parseNetloc ("https://".data ++ l) with
         | none => false
         | some netloc => hostAccepted netloc)) ∧
    (∀ raw : String, is_supported_url raw = true ↔
      ((pyStripChars raw.data).isEmpty = false ∧
       ∃ netloc, parseNetloc (normalizeUrl (pyStripChars raw.data)) = some netloc ∧
         hostAccepted netloc = true)) := by
  refine ⟨by decide, by decide, ?_, ?_, ?_⟩
  · intro raw hp
    unfold is_supported_url
    by_cases he : (pyStripChars raw.data).isEmpty
    · simp [he]
    · simp [he, hp]
  · intro l h1 h2 h3 h4 h5
    have hstrip : pyStripChars l = l := by
      unfold pyStripChars
      rw [h1, h2]
    have hnorm : normalizeUrl l = "https://".data ++ l := by
      unfold normalizeUrl
      rw [h4, h5]
      simp
    show is_supported_url ⟨l⟩ = _
    unfold is_supported_url
    simp only [hstrip, h3, Bool.false_eq_true, if_false, hnorm]
  · intro raw
    unfold is_supported_url
    by_cases he : (pyStripChars raw.data).isEmpty
    · simp [he]
    · cases hp : parseNetloc (normalizeUrl (pyStripChars raw.data)) with
      | none => simp [he, hp]
      | some n =>
        simp only [he, Bool.false_eq_true, if_false, hp]
        constructor
        · intro hacc
          refine ⟨?_, n, rfl, hacc⟩
          revert he
          cases (pyStripChars raw.data).isEmpty <;> simp
        · rintro ⟨-, n', hn', hacc⟩
          rw [Option.some.injEq] at hn'
          rw [hn']
          exact hacc

/-- Claim C7 witness: the scheme-normalization part of the contract applied
to the concrete schemeless input `youtu.be/abc`. -/
theorem c7_witness :
    is_supported_url (String.mk "youtu.be/abc".data) =
      (match parseNetloc ("https://".data ++ "youtu.be/abc".data) with
       | none => false
       | some netloc => hostAccepted netloc) :=
  c7_is_supported_url_contract.2.2.2.1 "youtu.be/abc".data
    (by decide) (by decide) (by decide) (by decide) (by decide)

theorem chain'_noAdjWs_of_no_ws {l : List Char}
    (h : ∀ c ∈ l, pyIsSpace c = false) : List.Chain' noAdjWs l := by
  induction l with
  | nil => simp
  | cons a t ih =>
    refine List.chain'_cons'.mpr ⟨?_, ih (fun c hc => h c (List.mem_cons_of_mem a hc))⟩
    intro y _ hcon
    have ha := h a (List.mem_cons_self a t)
    rw [ha] at hcon
    exact absurd hcon.1 (by simp)

theorem sanitize_props (input : Option String) :
    (sanitize_filename input).data ≠ [] ∧
    (sanitize_filename input).data.length ≤ 100 ∧
    (∀ c ∈ (sanitize_filename input).data, isForbiddenChar c = false) ∧
    List.Chain' noAdjWs (sanitize_filename input).data := by
  have hmf : ("media_file" : String).data ≠ [] ∧
      ("media_file" : String).data.length ≤ 100 ∧
      (∀ c ∈ ("media_file" : String).data, isForbiddenChar c = false) ∧
      List.Chain' noAdjWs ("media_file" : String).data := by
    refine ⟨by decide, by decide, by decide, chain'_noAdjWs_of_no_ws (by decide)⟩
  match input with
  | none => exact hmf
  | some s =>
    have hrw : sanitize_filename (some s) =
        (if s.data.isEmpty then "media_file"
         else
           let l1 := s.data.filter (fun c => !(isForbiddenChar c))
           let l2 := pyStripChars (collapseWs false l1)
           let l3 := if l2.length > 100 then l2.take 100 else l2
           if l3.isEmpty then "media_file" else ⟨l3⟩) := rfl
    rw [hrw]
    by_cases hse : s.data.isEmpty
    · simp only [hse, if_true]
      exact hmf
    · simp only [hse, Bool.false_eq_true, if_false]
      set l1 := s.data.filter (fun c => !(isForbiddenChar c)) with hl1
      set l2 := pyStripChars (collapseWs false l1) with hl2
      set l3 := (if l2.length > 100 then l2.take 100 else l2) with hl3
      have hmem3 : ∀ c ∈ l3, c ∈ l2 := by
        rw [hl3]
        by_cases h100 : l2.length > 100
        · simp only [h100, if_true]
          exact fun c hc => List.take_subset 100 l2 hc
        · simp only [h100, if_false]
          exact fun c hc => hc
      have hforb : ∀ c ∈ l3, isForbiddenChar c = false := by
        intro c hc
        rcases mem_collapseWs l1 false c (mem_pyStripChars_mem (hmem3 c hc)) with h | h
        · rw [h]; decide
        · have := (List.mem_filter.mp (hl1 ▸ h)).2
          revert this
          cases isForbiddenChar c <;> simp
      have hchain : List.Chain' noAdjWs l3 := by
        have h2 : List.Chain' noAdjWs l2 := chain'_pyStripChars (chain'_collapseWs l1 false)
        rw [hl3]
        by_cases h100 : l2.length > 100
        · simp only [h100, if_true]
          exact chain'_take 100 h2
        · simp only [h100, if_false]
          exact h2
      have hlen : l3.length ≤ 100 := by
        rw [hl3]
        by_cases h100 : l2.length > 100
        · simp only [h100, if_true, List.length_take]
          omega
        · simp only [h100, if_false]
          omega
      by_cases h3e : l3.isEmpty
      · rw [h3e]
        simp only [if_true]
        exact hmf
      · simp only [h3e, Bool.false_eq_true, if_false]
        refine ⟨?_, hlen, hforb, hchain⟩
        intro hnil
        rw [hnil] at h3e
        exact h3e rfl

/-- Claim C10 (confirmed): for every input — including `None`, the empty
string, and strings of only forbidden characters or only whitespace —
`sanitize_filename` returns a non-empty string of at most 100 characters
containing none of the forbidden characters and no two adjacent whitespace
characters, and falls back to `media_file` on degenerate inputs. -/
theorem c10_sanitize_filename_safe (input : Option String) :
    (sanitize_filename input).data ≠ [] ∧
    (sanitize_filename input).data.length ≤ 100 ∧
    (∀ c ∈ (sanitize_filename input).data, isForbiddenChar c = false) ∧
    List.Chain' noAdjWs (sanitize_filename input).data ∧
    sanitize_filename none = "media_file" ∧
    sanitize_filename (some "   ") = "media_file" ∧
    sanitize_filename (some "?*<>|") = "media_file" := by
  refine ⟨(sanitize_props input).1, (sanitize_props input).2.1,
    (sanitize_props input).2.2.1, (sanitize_props input).2.2.2, rfl, ?_, ?_⟩
  · decide
  · decide

/-- Claim C10 witness: the per-character guarantee applied to a concrete
input and character. -/
theorem c10_witness : isForbiddenChar 'a' = false :=
  (c10_sanitize_filename_safe (some "a")).2.2.1 'a' (by decide)
